import Mathlib

/-!
Verification development for the licensing / quota enforcement service.

The definitions below are a shallow embedding of the Python sources:
  * `utility/quotas.py`      — `QuotaService` (sliding-window execution
    counter, application counter, atomic check-and-reserve primitives);
  * `licenses/models.py`     — `License` lifecycle methods;
  * `licenses/views.py`      — suspend / reactivate endpoints;
  * `utility/hybrid_auth.py` — license-token authentication;
  * `applications/views.py`  — `ApplicationRegisterAPIView.post`;
  * `jobs/views.py`          — `JobStartAPIView.post`, `JobFinishAPIView.post`;
  * `jobs/serializers.py`    — `JobFinishSerializer.validate_job_id`.

Conventions of the embedding:
  * Unix timestamps (float seconds in Python) are modelled as `Int` seconds;
    none of the verified properties depends on sub-second resolution.
  * The Redis sorted set behind a tenant's `executions:` key is a list of
    (member, score) pairs; the counter behind `apps:count:` is an
    `Option Int` (`none` = key absent, which the cache reads as 0).
  * Every cache/Redis primitive that the Python code guards with
    `try/except` can be made to raise through an explicit `Faults` record;
    `noFaults` is the fault-free execution used by the functional claims.
  * Django model saves are modelled by returning the updated record;
    a durable-insert failure inside a request is an explicit
    `insertFails` flag (the `@transaction.atomic` DB rollback is implied
    by returning no created row on that path).
-/

namespace LicensingCloud

/-! ## Redis sorted-set primitives (`utility/quotas.py` backend operations) -/

/-- One member of a Redis sorted set: the member string and its score. -/
structure ZEntry where
  member : String
  score : Int
deriving Repr, DecidableEq

/-- A Redis sorted set, as the list of its entries. -/
abbrev ZSet := List ZEntry

/-- Redis `ZADD key score member`: update the score when the member is
already present, otherwise insert the member. -/
def zadd (s : ZSet) (m : String) (sc : Int) : ZSet :=
  if s.any (fun e => e.member == m) then
    s.map (fun e => if e.member == m then ⟨m, sc⟩ else e)
  else
    ⟨m, sc⟩ :: s

/-- Redis `ZCOUNT key lo hi` (both bounds inclusive). -/
def zcount (s : ZSet) (lo hi : Int) : Nat :=
  s.countP (fun e => decide (lo ≤ e.score ∧ e.score ≤ hi))

/-- Redis `ZREMRANGEBYSCORE key -inf hi`: drop every entry whose score is
at most `hi` (the upper bound is inclusive). -/
def zremrangebyscoreUpTo (s : ZSet) (hi : Int) : ZSet :=
  s.filter (fun e => decide (hi < e.score))

/-- Redis `ZRANGEBYSCORE key lo hi` (both bounds inclusive). -/
def zrangebyscore (s : ZSet) (lo hi : Int) : List ZEntry :=
  s.filter (fun e => decide (lo ≤ e.score ∧ e.score ≤ hi))

/-- The state behind a tenant's `executions:` key: the sorted set plus the
key TTL last set by `EXPIRE` (`none` = no expiry set yet). -/
structure ExecWindow where
  entries : ZSet
  ttlSeconds : Option Nat
deriving Repr, DecidableEq

/-- Redis `EXPIRE key t`. -/
def expireW (w : ExecWindow) (t : Nat) : ExecWindow :=
  ⟨w.entries, some t⟩

/-- Which backend operations raise during a request.  Each flag makes the
corresponding cache/Redis call raise at its call site, exercising the
`try/except` structure of `QuotaService`. -/
structure Faults where
  failLockAcquire : Bool
  failZadd : Bool
  failExpire : Bool
  failZcount : Bool
  failZrem : Bool
  failZrange : Bool
  failCacheGet : Bool
  failCacheSet : Bool
  failCacheIncr : Bool
  failCacheDecr : Bool
deriving Repr, DecidableEq

/-- The fault-free backend: no cache/Redis call raises. -/
def noFaults : Faults :=
  ⟨false, false, false, false, false, false, false, false, false, false⟩

/-! ## QuotaService — sliding-window execution counter -/

/-- `QuotaService.EXECUTION_TTL`: 24 hours in seconds. -/
def EXECUTION_TTL : Nat := 86400

/-- The member string recorded for one execution,
Python `f"{job_id}:{timestamp}"`. -/
def execMemberString (jobId : String) (ts : Int) : String :=
  jobId ++ ":" ++ toString ts

/-- `QuotaService._cleanup_old_executions`: remove entries with
`score ≤ now − EXECUTION_TTL`.  The method catches its own backend
errors, so a raising `ZREMRANGEBYSCORE` leaves the window unchanged and
nothing propagates. -/
def cleanup_old_executions (f : Faults) (w : ExecWindow) (now : Int) : ExecWindow :=
  if f.failZrem then w
  else ⟨zremrangebyscoreUpTo w.entries (now - (EXECUTION_TTL : Int)), w.ttlSeconds⟩

/-- `QuotaService.get_execution_count`: `ZCOUNT` over the last
`window_hours` hours; returns 0 when the backend raises. -/
def get_execution_count (f : Faults) (w : ExecWindow) (now : Int)
    (window_hours : Nat := 24) : Nat :=
  if f.failZcount then 0
  else zcount w.entries (now - (window_hours * 3600 : Nat)) now

/-- `QuotaService.record_execution`: `ZADD` the member, refresh the TTL,
then clean up; returns `false` (leaving the raise unpropagated) when a
backend call raises. -/
def record_execution (f : Faults) (w : ExecWindow) (jobId : String) (now : Int) :
    Bool × ExecWindow :=
  if f.failZadd then (false, w)
  else
    let w1 : ExecWindow := ⟨zadd w.entries (execMemberString jobId now) now, w.ttlSeconds⟩
    if f.failExpire then (false, w1)
    else (true, cleanup_old_executions f (expireW w1 (EXECUTION_TTL + 3600)) now)

/-- `QuotaService.get_execution_history`: `ZRANGEBYSCORE` over the last
`hours` hours; returns the empty list when the backend raises. -/
def get_execution_history (f : Faults) (w : ExecWindow) (now : Int)
    (hours : Nat := 24) : List ZEntry :=
  if f.failZrange then []
  else zrangebyscore w.entries (now - (hours * 3600 : Nat)) now

/-- The `(success, current_count, error_message)` triple returned by the
atomic execution reservation. -/
structure QuotaResult where
  success : Bool
  current : Nat
  message : Option String
deriving Repr, DecidableEq

/-- Full outcome of `check_and_record_execution_atomic`: the returned
triple, the window state left in Redis, and whether the per-tenant lock
was acquired and later released. -/
structure AtomicExecOutcome where
  result : QuotaResult
  window : ExecWindow
  lockWasAcquired : Bool
  lockReleased : Bool
deriving Repr, DecidableEq

/-- Message returned when the per-tenant lock cannot be acquired. -/
def busyMessage : String := "System is busy, please try again"

/-- Message returned when the execution quota is exceeded. -/
def quotaExceededMessage (c maxE : Nat) : String :=
  "Execution quota exceeded: " ++ toString c ++ "/" ++ toString maxE ++
    " executions in last 24h"

/-- Python `f"Internal error: {str(e)}"` from the outer `except` handler. -/
def internalErrorMessage (e : String) : String := "Internal error: " ++ e

/-- `QuotaService.check_and_record_execution_atomic`.  `lockAvailable`
says whether `lock.acquire` succeeds within its 5 s wait.  A raising
backend call lands in the outer `except` handler, producing the
`Internal error` triple; the `finally` block releases the lock on every
path that acquired it. -/
def check_and_record_execution_atomic (f : Faults) (w : ExecWindow) (jobId : String)
    (max_executions : Nat) (now : Int) (lockAvailable : Bool) : AtomicExecOutcome :=
  if f.failLockAcquire then
    ⟨⟨false, 0, some (internalErrorMessage "lock acquire failed")⟩, w, false, false⟩
  else if !lockAvailable then
    ⟨⟨false, 0, some busyMessage⟩, w, false, false⟩
  else
    let w1 := cleanup_old_executions f w now
    let c := get_execution_count f w1 now
    if max_executions ≤ c then
      ⟨⟨false, c, some (quotaExceededMessage c max_executions)⟩, w1, true, true⟩
    else if f.failZadd then
      ⟨⟨false, 0, some (internalErrorMessage "zadd failed")⟩, w1, true, true⟩
    else
      let w2 : ExecWindow := ⟨zadd w1.entries (execMemberString jobId now) now, w1.ttlSeconds⟩
      if f.failExpire then
        ⟨⟨false, 0, some (internalErrorMessage "expire failed")⟩, w2, true, true⟩
      else
        ⟨⟨true, c + 1, none⟩, expireW w2 (EXECUTION_TTL + 3600), true, true⟩

/-! ## QuotaService — application counter -/

/-- The cache value behind `apps:count:{tenant}`; `none` = key absent. -/
abbrev AppCounter := Option Int

/-- `QuotaService.get_app_count`: `cache.get`, reading an absent key and a
raising backend both as 0. -/
def get_app_count (f : Faults) (c : AppCounter) : Int :=
  if f.failCacheGet then 0 else c.getD 0

/-- Django `cache.incr`: raises on an absent key, otherwise returns the
incremented value and stores it. -/
def cache_incr (c : AppCounter) : Except String (Int × AppCounter) :=
  match c with
  | none => Except.error "incr on missing key"
  | some n => Except.ok (n + 1, some (n + 1))

/-- Django `cache.decr`: raises on an absent key, otherwise returns the
decremented value and stores it. -/
def cache_decr (c : AppCounter) : Except String (Int × AppCounter) :=
  match c with
  | none => Except.error "decr on missing key"
  | some n => Except.ok (n - 1, some (n - 1))

/-- The `(success, current_count, error_message)` triple returned by the
atomic application reservation; the count is the raw cache integer. -/
structure AppQuotaResult where
  success : Bool
  current : Int
  message : Option String
deriving Repr, DecidableEq

/-- Full outcome of `check_and_increment_app_count_atomic`. -/
structure AtomicAppOutcome where
  result : AppQuotaResult
  counter : AppCounter
  lockWasAcquired : Bool
  lockReleased : Bool
deriving Repr, DecidableEq

/-- Message returned when the application quota is exceeded. -/
def maxAppsMessage (c : Int) (maxApps : Nat) : String :=
  "Maximum number of applications reached: " ++ toString c ++ "/" ++ toString maxApps

/-- `QuotaService.check_and_increment_app_count_atomic`.  Inside the lock:
read the count, reject at `max_apps`, otherwise `set 1` on a fresh key or
`incr`; raises land in the outer handler, the `finally` releases the
lock. -/
def check_and_increment_app_count_atomic (f : Faults) (c : AppCounter) (max_apps : Nat)
    (lockAvailable : Bool) : AtomicAppOutcome :=
  if f.failLockAcquire then
    ⟨⟨false, 0, some (internalErrorMessage "lock acquire failed")⟩, c, false, false⟩
  else if !lockAvailable then
    ⟨⟨false, 0, some busyMessage⟩, c, false, false⟩
  else
    let cur := get_app_count f c
    if (max_apps : Int) ≤ cur then
      ⟨⟨false, cur, some (maxAppsMessage cur max_apps)⟩, c, true, true⟩
    else if cur = 0 then
      if f.failCacheSet then
        ⟨⟨false, 0, some (internalErrorMessage "cache set failed")⟩, c, true, true⟩
      else
        ⟨⟨true, 1, none⟩, some 1, true, true⟩
    else
      match (if f.failCacheIncr then Except.error "cache incr failed" else cache_incr c) with
      | Except.error e => ⟨⟨false, 0, some (internalErrorMessage e)⟩, c, true, true⟩
      | Except.ok (n, c') => ⟨⟨true, n, none⟩, c', true, true⟩

/-- `QuotaService.decrement_app_count`: `cache.decr`, returning 0 (with
the counter untouched) when the backend raises. -/
def decrement_app_count (f : Faults) (c : AppCounter) : Int × AppCounter :=
  match (if f.failCacheDecr then Except.error "cache decr failed" else cache_decr c) with
  | Except.error _ => (0, c)
  | Except.ok r => r

/-! ## License model (`licenses/models.py`) -/

/-- The `LicenseStatus` text choices. -/
inductive LicenseStatus
  | ACTIVE
  | SUSPENDED
  | EXPIRED
  | REVOKED
deriving Repr, DecidableEq

/-- Python `status.lower()` as used in the authentication error message. -/
def LicenseStatus.lowerString : LicenseStatus → String
  | .ACTIVE => "active"
  | .SUSPENDED => "suspended"
  | .EXPIRED => "expired"
  | .REVOKED => "revoked"

/-- The `License` row, restricted to the fields the verified claims touch. -/
structure License where
  tenant_id : String
  tenant_name : String
  max_apps : Nat
  max_executions_per_24h : Nat
  valid_from : Int
  valid_to : Int
  status : LicenseStatus
deriving Repr, DecidableEq

/-- `License.is_valid`: ACTIVE and `valid_from ≤ now ≤ valid_to`. -/
def License.is_valid (l : License) (now : Int) : Bool :=
  decide (l.status = LicenseStatus.ACTIVE ∧ l.valid_from ≤ now ∧ now ≤ l.valid_to)

/-- `License.is_expired`: `now > valid_to`. -/
def License.is_expired (l : License) (now : Int) : Bool :=
  decide (l.valid_to < now)

/-- `License.suspend`: set the status to SUSPENDED and save; the method
performs no check on the current status. -/
def License.suspend (l : License) : License :=
  { l with status := LicenseStatus.SUSPENDED }

/-- `License.reactivate`: when not expired, set the status to ACTIVE, save
and return `True`; otherwise return `False`.  The current status is not
consulted. -/
def License.reactivate (l : License) (now : Int) : Bool × License :=
  if l.is_expired now then (false, l)
  else (true, { l with status := LicenseStatus.ACTIVE })

/-- `License.revoke`: set the status to REVOKED and save. -/
def License.revoke (l : License) : License :=
  { l with status := LicenseStatus.REVOKED }

/-- `LicenseSuspendAPIView.post` (`licenses/views.py`): suspend, append a
SUSPEND history row, answer 200 with the serialized license.  The result
is the stored license and the HTTP status code. -/
def license_suspend_post (l : License) : License × Nat :=
  (l.suspend, 200)

/-- `LicenseSuspendAPIView.delete` (`licenses/views.py`): the reactivation
endpoint.  When `License.reactivate` reports success it appends a
REACTIVATE history row and answers 200; otherwise it answers 400
("Cannot reactivate expired license").  The result is the stored license
and the HTTP status code. -/
def license_reactivate_delete (l : License) (now : Int) : License × Nat :=
  let r := l.reactivate now
  if r.1 then (r.2, 200) else (r.2, 400)

/-! ## License-token authentication (`utility/hybrid_auth.py`) -/

/-- The decoded payload of a license token.  Besides `tenant_id`, tokens
embed advisory copies of the license fields (status, validity bounds,
caps) minted at token-generation time; `authenticate_license` never
consults them. -/
structure LicenseClaims where
  tenant_id : Option String
  claim_status : Option LicenseStatus
  claim_valid_from : Option Int
  claim_valid_to : Option Int
  claim_max_apps : Option Nat
  claim_max_executions_per_24h : Option Nat
deriving Repr, DecidableEq

/-- Outcome of `HybridJWTAuthentication.authenticate_license`: the
authenticated license, or an `AuthenticationFailed` message (HTTP 401). -/
inductive AuthOutcome
  | ok (l : License)
  | failed (message : String)
deriving Repr, DecidableEq

/-- `HybridJWTAuthentication.authenticate_license`: re-read the stored
license by `tenant_id` (`stored` is the database lookup result) and
validate its live state; the token's embedded claims are not consulted. -/
def authenticate_license (payload : LicenseClaims) (stored : Option License)
    (now : Int) : AuthOutcome :=
  match payload.tenant_id with
  | none => .failed "Invalid token payload"
  | some _ =>
    match stored with
    | none => .failed "License not found"
    | some l =>
      if l.status ≠ LicenseStatus.ACTIVE then
        .failed ("License is " ++ l.status.lowerString)
      else if now < l.valid_from then
        .failed "License not yet valid"
      else if l.valid_to < now then
        .failed "License has expired"
      else
        .ok l

/-! ## Applications (`applications/models.py`, `applications/views.py`) -/

/-- The `Application` row, restricted to the fields the claims touch. -/
structure Application where
  id : String
  license_tenant : String
  name : String
  is_active : Bool
deriving Repr, DecidableEq

/-- Response of `ApplicationRegisterAPIView.post`. -/
inductive RegisterOutcome
  | created
  | badRequestDuplicate
  | forbiddenQuota (max_apps : Nat) (current_count : Int) (message : String)
  | serverError
deriving Repr, DecidableEq

/-- `ApplicationRegisterAPIView.post` after authentication: duplicate-name
check, atomic counter reservation (403 with the quota envelope on
failure), then the durable insert; a raising insert is caught, the
counter increment is rolled back with `decrement_app_count`, and the
exception is re-raised (`serverError`).  The result is the HTTP outcome
and the `apps:count:` cache value left behind. -/
def application_register_post (f : Faults) (lic : License) (counter : AppCounter)
    (duplicateName : Bool) (insertFails : Bool) (lockAvailable : Bool) :
    RegisterOutcome × AppCounter :=
  if duplicateName then (.badRequestDuplicate, counter)
  else
    let o := check_and_increment_app_count_atomic f counter lic.max_apps lockAvailable
    if !o.result.success then
      (.forbiddenQuota lic.max_apps o.result.current
        ((o.result.message).getD
          ("You have reached the maximum of " ++ toString lic.max_apps ++ " applications")),
        o.counter)
    else if insertFails then
      (.serverError, (decrement_app_count f o.counter).2)
    else
      (.created, o.counter)

/-! ## Jobs (`jobs/models.py`, `jobs/serializers.py`, `jobs/views.py`) -/

/-- The `JobStatus` text choices. -/
inductive JobStatus
  | PENDING
  | RUNNING
  | COMPLETED
  | FAILED
  | CANCELLED
deriving Repr, DecidableEq

/-- The stored status string, as interpolated into serializer messages. -/
def JobStatus.statusString : JobStatus → String
  | .PENDING => "PENDING"
  | .RUNNING => "RUNNING"
  | .COMPLETED => "COMPLETED"
  | .FAILED => "FAILED"
  | .CANCELLED => "CANCELLED"

/-- The `Job` row.  `FloatField` samples (`execution_time`, `cpu_usage`,
`memory_usage`) are modelled as integer seconds / integer samples: no
verified claim depends on real-valued arithmetic, only on whether the
fields change. -/
structure Job where
  id : String
  license_tenant : String
  name : String
  status : JobStatus
  started_at : Int
  finished_at : Option Int
  execution_time : Option Int
  error_message : String
  result_payload : String
  cpu_usage : Option Int
  memory_usage : Option Int
deriving Repr, DecidableEq

/-- `Job.calculate_execution_time`: when both timestamps are set, store
`finished_at − started_at` in seconds. -/
def Job.calculate_execution_time (j : Job) : Job :=
  match j.finished_at with
  | some fin => { j with execution_time := some (fin - j.started_at) }
  | none => j

/-- `JobFinishSerializer.validate_job_id`: the database lookup result is
`lookup`; a missing job or a job whose status is not RUNNING raises a
`ValidationError` (HTTP 400 from the view). -/
def validate_job_id (lookup : Option Job) : Except String Job :=
  match lookup with
  | none => Except.error "Job not found."
  | some j =>
    if j.status ≠ JobStatus.RUNNING then
      Except.error ("Job is not running. Current status: " ++ j.status.statusString)
    else
      Except.ok j

/-- The body of a finish-job request after field parsing.  `status` is the
serializer's choice field (COMPLETED/FAILED, default COMPLETED); absent
optional fields are `none`. -/
structure FinishRequest where
  job_id : String
  status : JobStatus
  result_payload : Option String
  error_message : Option String
  cpu_usage : Option Int
  memory_usage : Option Int
deriving Repr, DecidableEq

/-- Response of `JobFinishAPIView.post`. -/
inductive FinishOutcome
  | ok (updated : Job)
  | badRequest (message : String)
  | forbidden (message : String)
deriving Repr, DecidableEq

/-- `JobFinishAPIView.post` after authentication: serializer validation
(the status choice and `validate_job_id`) answers 400 on failure; then
the ownership check answers 403; otherwise the job is updated, its
execution time computed, and the updated job returned (200).  The result
is the HTTP outcome and the stored job row afterwards. -/
def job_finish_post (callerTenant : String) (lookup : Option Job)
    (req : FinishRequest) (now : Int) : FinishOutcome × Option Job :=
  if ¬(req.status = JobStatus.COMPLETED ∨ req.status = JobStatus.FAILED) then
    (.badRequest "Invalid status choice", lookup)
  else
    match validate_job_id lookup with
    | Except.error m => (.badRequest m, lookup)
    | Except.ok job =>
      if job.license_tenant ≠ callerTenant then
        (.forbidden "Job does not belong to this license", some job)
      else
        let j1 : Job :=
          { job with
            status := req.status
            finished_at := some now
            result_payload := req.result_payload.getD "\x7b\x7d"
            error_message := req.error_message.getD ""
            cpu_usage := match req.cpu_usage with
              | some v => some v
              | none => job.cpu_usage
            memory_usage := match req.memory_usage with
              | some v => some v
              | none => job.memory_usage }
        let j2 := j1.calculate_execution_time
        (.ok j2, some j2)

/-- Response of `JobStartAPIView.post`. -/
inductive StartOutcome
  | created (job_id : String)
  | forbiddenNotOwned
  | forbiddenInactive
  | tooManyRequests (max_executions_per_24h : Nat) (current_count : Nat) (message : String)
  | serverError
deriving Repr, DecidableEq

/-- `JobStartAPIView.post` after authentication and body validation:
ownership and activity guards (403), atomic sliding-window reservation
(429 with the quota envelope on failure), then the durable insert of the
Job and JobExecution rows.  A raising insert propagates out of the view
(`serverError`): `@transaction.atomic` rolls the database rows back, but
no handler removes the member just added to the Redis window.  The
result is the HTTP outcome and the window state left in Redis. -/
def job_start_post (f : Faults) (lic : License) (app : Application) (w : ExecWindow)
    (now : Int) (temp_job_id : String) (insertFails : Bool) (lockAvailable : Bool) :
    StartOutcome × ExecWindow :=
  if app.license_tenant ≠ lic.tenant_id then (.forbiddenNotOwned, w)
  else if !app.is_active then (.forbiddenInactive, w)
  else
    let o := check_and_record_execution_atomic f w temp_job_id
      lic.max_executions_per_24h now lockAvailable
    if !o.result.success then
      (.tooManyRequests lic.max_executions_per_24h o.result.current
        ((o.result.message).getD
          ("You have reached the maximum of " ++ toString lic.max_executions_per_24h ++
            " executions in the last 24 hours")),
        o.window)
    else if insertFails then
      (.serverError, o.window)
    else
      (.created temp_job_id, o.window)

/-- Issue a sequence of fault-free start-job requests (fresh job id and
timestamp per request) against one tenant's window, threading the window
state; returns the responses in order and the final window. -/
def run_start_jobs (lic : License) (app : Application) (w : ExecWindow)
    (reqs : List (Int × String)) : List StartOutcome × ExecWindow :=
  match reqs with
  | [] => ([], w)
  | (t, jid) :: rest =>
    let r := job_start_post noFaults lic app w t jid false true
    let rs := run_start_jobs lic app r.2 rest
    (r.1 :: rs.1, rs.2)

/-- Whether a start-job response is a 201. -/
def StartOutcome.isCreated : StartOutcome → Bool
  | .created _ => true
  | _ => false

/-- Whether a start-job response is a 429. -/
def StartOutcome.isTooMany : StartOutcome → Bool
  | .tooManyRequests _ _ _ => true
  | _ => false

/-- The window member that a queued start-job request `(timestamp, job_id)`
would record. -/
def reqMember (p : Int × String) : String :=
  execMemberString p.2 p.1

/-! ## Helper lemmas about the sorted-set primitives -/

@[simp] theorem noFaults_failLockAcquire : noFaults.failLockAcquire = false := rfl

@[simp] theorem noFaults_failZadd : noFaults.failZadd = false := rfl

@[simp] theorem noFaults_failExpire : noFaults.failExpire = false := rfl

@[simp] theorem noFaults_failZcount : noFaults.failZcount = false := rfl

@[simp] theorem noFaults_failZrem : noFaults.failZrem = false := rfl

@[simp] theorem noFaults_failZrange : noFaults.failZrange = false := rfl

@[simp] theorem noFaults_failCacheGet : noFaults.failCacheGet = false := rfl

@[simp] theorem noFaults_failCacheSet : noFaults.failCacheSet = false := rfl

@[simp] theorem noFaults_failCacheIncr : noFaults.failCacheIncr = false := rfl

@[simp] theorem noFaults_failCacheDecr : noFaults.failCacheDecr = false := rfl

theorem cleanup_old_executions_eq_self (w : ExecWindow) (now : Int)
    (h : ∀ e ∈ w.entries, now - (EXECUTION_TTL : Int) < e.score) :
    cleanup_old_executions noFaults w now = w := by
  have hf : w.entries.filter (fun e => decide (now - (EXECUTION_TTL : Int) < e.score))
      = w.entries :=
    List.filter_eq_self.mpr (fun a ha => by simpa using h a ha)
  simp [cleanup_old_executions, zremrangebyscoreUpTo, hf]

theorem zcount_eq_length (s : ZSet) (lo hi : Int)
    (h : ∀ e ∈ s, lo ≤ e.score ∧ e.score ≤ hi) :
    zcount s lo hi = s.length := by
  unfold zcount
  rw [List.countP_eq_length]
  intro a ha
  simpa using h a ha

theorem zadd_of_not_mem (s : ZSet) (m : String) (sc : Int)
    (h : ∀ e ∈ s, e.member ≠ m) :
    zadd s m sc = ⟨m, sc⟩ :: s := by
  have ha : s.any (fun e => e.member == m) = false := by
    rw [List.any_eq_false]
    intro e he
    simpa using h e he
  simp [zadd, ha]

/-! ## Claim theorems -/

/-- C1: on a durable-insert failure after a successful quota reservation,
the register-application request rolls its counter back to the
pre-request value, but the start-job request leaves the just-added
sliding-window member in the window: the reservation is not undone.
Evaluated at concrete failing inputs (counter at 2 of max 5; empty
window, cap 100, request at time 1000). -/
theorem C1_insert_failure_rollback_evaluation :
    (application_register_post noFaults
        ⟨"t1", "Tenant", 5, 100, 0, 2000000, LicenseStatus.ACTIVE⟩
        (some 2) false true true
      = (RegisterOutcome.serverError, some 2)) ∧
    (job_start_post noFaults
        ⟨"t1", "Tenant", 5, 100, 0, 2000000, LicenseStatus.ACTIVE⟩
        ⟨"app1", "t1", "A", true⟩ ⟨[], none⟩ 1000 "job-1" true true
      = (StartOutcome.serverError,
          ⟨[⟨"job-1:1000", 1000⟩], some (EXECUTION_TTL + 3600)⟩)) ∧
    get_execution_count noFaults
        (job_start_post noFaults
          ⟨"t1", "Tenant", 5, 100, 0, 2000000, LicenseStatus.ACTIVE⟩
          ⟨"app1", "t1", "A", true⟩ ⟨[], none⟩ 1000 "job-1" true true).2 1000 = 1 := by
  refine ⟨rfl, rfl, rfl⟩

/-- C2: the code reactivates a REVOKED license whose `valid_to` has not
passed: `License.reactivate` checks only expiry, so it returns `True`
with the status set to ACTIVE, and the reactivation endpoint answers
200 with the stored status ACTIVE — the claim's required rejection does
not happen.  Evaluated at a REVOKED license with `now = 500 ≤ valid_to
= 1000`. -/
theorem C2_revoked_license_reactivates :
    License.reactivate ⟨"t1", "Tenant", 3, 10, 0, 1000, LicenseStatus.REVOKED⟩ 500
      = (true, ⟨"t1", "Tenant", 3, 10, 0, 1000, LicenseStatus.ACTIVE⟩) ∧
    license_reactivate_delete ⟨"t1", "Tenant", 3, 10, 0, 1000, LicenseStatus.REVOKED⟩ 500
      = (⟨"t1", "Tenant", 3, 10, 0, 1000, LicenseStatus.ACTIVE⟩, 200) := by
  refine ⟨rfl, rfl⟩

/-- C10: `License.suspend` unconditionally sets the status to SUSPENDED
and saves, whatever the prior status (including REVOKED and EXPIRED),
changing no other field; the suspend endpoint always answers 200 with
the suspended license. -/
theorem C10_suspend_unconditional (l : License) :
    (License.suspend l).status = LicenseStatus.SUSPENDED ∧
    (License.suspend l).tenant_id = l.tenant_id ∧
    (License.suspend l).tenant_name = l.tenant_name ∧
    (License.suspend l).max_apps = l.max_apps ∧
    (License.suspend l).max_executions_per_24h = l.max_executions_per_24h ∧
    (License.suspend l).valid_from = l.valid_from ∧
    (License.suspend l).valid_to = l.valid_to ∧
    license_suspend_post l = (License.suspend l, 200) := by
  simp [License.suspend, license_suspend_post]

/-- C7: license-token authentication re-reads the stored license and, for
every token payload (whatever advisory claims it embeds), fails with the
status-specific message whenever the stored license is not ACTIVE, not
yet valid, or past `valid_to`; in particular a false `is_valid` always
yields an authentication failure. -/
theorem C7_license_auth_revalidates_stored_state
    (payload : LicenseClaims) (tid : String) (l : License) (now : Int)
    (htid : payload.tenant_id = some tid) :
    (l.status ≠ LicenseStatus.ACTIVE →
      authenticate_license payload (some l) now
        = AuthOutcome.failed ("License is " ++ l.status.lowerString)) ∧
    (l.status = LicenseStatus.ACTIVE → now < l.valid_from →
      authenticate_license payload (some l) now
        = AuthOutcome.failed "License not yet valid") ∧
    (l.status = LicenseStatus.ACTIVE → l.valid_from ≤ now → l.valid_to < now →
      authenticate_license payload (some l) now
        = AuthOutcome.failed "License has expired") ∧
    (l.is_valid now = false →
      ∃ msg, authenticate_license payload (some l) now = AuthOutcome.failed msg) := by
  have h1 : l.status ≠ LicenseStatus.ACTIVE →
      authenticate_license payload (some l) now
        = AuthOutcome.failed ("License is " ++ l.status.lowerString) := by
    intro hs
    simp [authenticate_license, htid, hs]
  have h2 : l.status = LicenseStatus.ACTIVE → now < l.valid_from →
      authenticate_license payload (some l) now
        = AuthOutcome.failed "License not yet valid" := by
    intro hs hf
    simp [authenticate_license, htid, hs, hf]
  have h3 : l.status = LicenseStatus.ACTIVE → l.valid_from ≤ now → l.valid_to < now →
      authenticate_license payload (some l) now
        = AuthOutcome.failed "License has expired" := by
    intro hs hf ht
    simp [authenticate_license, htid, hs, ht]
    omega
  refine ⟨h1, h2, h3, ?_⟩
  intro hv
  by_cases hs : l.status = LicenseStatus.ACTIVE
  · by_cases hf : now < l.valid_from
    · exact ⟨_, h2 hs hf⟩
    · have ht : l.valid_to < now := by
        simp [License.is_valid, hs] at hv
        omega
      exact ⟨_, h3 hs (by omega) ht⟩
  · exact ⟨_, h1 hs⟩

/-- C7 witness: a stored SUSPENDED license is rejected with the
status-specific message even though the token's embedded claims say
ACTIVE and in-window. -/
theorem C7_witness :
    authenticate_license
        ⟨some "t1", some LicenseStatus.ACTIVE, some 0, some 100, some 3, some 10⟩
        (some ⟨"t1", "Tenant", 3, 10, 0, 100, LicenseStatus.SUSPENDED⟩) 50
      = AuthOutcome.failed "License is suspended" :=
  (C7_license_auth_revalidates_stored_state
      ⟨some "t1", some LicenseStatus.ACTIVE, some 0, some 100, some 3, some 10⟩
      "t1" ⟨"t1", "Tenant", 3, 10, 0, 100, LicenseStatus.SUSPENDED⟩ 50 rfl).1
    (by decide)

/-- C8 (amended): finish-job rejects with 400 reporting the job's current
status whenever that status is not RUNNING — this serializer check runs
before the ownership check, so it also covers jobs of another license —
and rejects with 403 when the job is RUNNING but belongs to another
license; in both rejected cases the stored job row is unchanged. -/
theorem C8_finish_job_rejections (callerTenant : String) (j : Job)
    (req : FinishRequest) (now : Int)
    (hchoice : req.status = JobStatus.COMPLETED ∨ req.status = JobStatus.FAILED) :
    (j.status ≠ JobStatus.RUNNING →
      job_finish_post callerTenant (some j) req now
        = (FinishOutcome.badRequest
            ("Job is not running. Current status: " ++ j.status.statusString), some j)) ∧
    (j.status = JobStatus.RUNNING → j.license_tenant ≠ callerTenant →
      job_finish_post callerTenant (some j) req now
        = (FinishOutcome.forbidden "Job does not belong to this license", some j)) := by
  constructor
  · intro hs
    simp [job_finish_post, validate_job_id, hchoice, hs]
  · intro hs hown
    simp [job_finish_post, validate_job_id, hchoice, hs, hown]

/-- C8 witness: a RUNNING job of tenant `t1` finished by caller `t2` is
rejected with 403 and the stored row is untouched. -/
theorem C8_witness :
    job_finish_post "t2"
        (some ⟨"j1", "t1", "job", JobStatus.RUNNING, 0, none, none, "", "\x7b\x7d", none, none⟩)
        ⟨"j1", JobStatus.COMPLETED, none, none, none, none⟩ 100
      = (FinishOutcome.forbidden "Job does not belong to this license",
          some ⟨"j1", "t1", "job", JobStatus.RUNNING, 0, none, none, "", "\x7b\x7d", none, none⟩) :=
  (C8_finish_job_rejections "t2"
      ⟨"j1", "t1", "job", JobStatus.RUNNING, 0, none, none, "", "\x7b\x7d", none, none⟩
      ⟨"j1", JobStatus.COMPLETED, none, none, none, none⟩ 100 (Or.inl rfl)).2
    rfl (by decide)

/-- C8 counterexample: a COMPLETED job belonging to tenant `t1`, finished
by caller `t2`, is rejected with 400 ("Job is not running…"), not with
the 403 the claim requires for every job of another license. -/
theorem C8_counterexample :
    (⟨"j1", "t1", "job", JobStatus.COMPLETED, 0, some 10, some 10, "", "\x7b\x7d", none,
        none⟩ : Job).license_tenant ≠ "t2" ∧
    job_finish_post "t2"
        (some ⟨"j1", "t1", "job", JobStatus.COMPLETED, 0, some 10, some 10, "", "\x7b\x7d",
          none, none⟩)
        ⟨"j1", JobStatus.COMPLETED, none, none, none, none⟩ 100
      = (FinishOutcome.badRequest "Job is not running. Current status: COMPLETED",
          some ⟨"j1", "t1", "job", JobStatus.COMPLETED, 0, some 10, some 10, "", "\x7b\x7d",
            none, none⟩) := by
  refine ⟨by decide, rfl⟩

/-- C3: with the per-tenant lock acquired, the atomic reservation first
removes the entries with score at most `now − 86400`, computes the
in-window count `c`, and then either rejects with `(false, c, message)`
adding nothing, or records the member `job_id:ts` with score `ts`,
refreshes the TTL, and returns `(true, c + 1, none)`; on success with a
fresh member, `current` is exactly the post-reservation window count. -/
theorem C3_check_and_record_execution_atomic (w : ExecWindow) (jid : String)
    (maxE : Nat) (now : Int) :
    (cleanup_old_executions noFaults w now).entries
        = w.entries.filter (fun e => decide (now - (EXECUTION_TTL : Int) < e.score)) ∧
    (maxE ≤ get_execution_count noFaults (cleanup_old_executions noFaults w now) now →
      check_and_record_execution_atomic noFaults w jid maxE now true
        = ⟨⟨false, get_execution_count noFaults (cleanup_old_executions noFaults w now) now,
            some (quotaExceededMessage
              (get_execution_count noFaults (cleanup_old_executions noFaults w now) now)
              maxE)⟩,
          cleanup_old_executions noFaults w now, true, true⟩) ∧
    (get_execution_count noFaults (cleanup_old_executions noFaults w now) now < maxE →
      check_and_record_execution_atomic noFaults w jid maxE now true
        = ⟨⟨true,
            get_execution_count noFaults (cleanup_old_executions noFaults w now) now + 1,
            none⟩,
          ⟨zadd (cleanup_old_executions noFaults w now).entries
              (execMemberString jid now) now,
            some (EXECUTION_TTL + 3600)⟩, true, true⟩) ∧
    (get_execution_count noFaults (cleanup_old_executions noFaults w now) now < maxE →
      (∀ e ∈ (cleanup_old_executions noFaults w now).entries,
          e.member ≠ execMemberString jid now) →
      get_execution_count noFaults
          (check_and_record_execution_atomic noFaults w jid maxE now true).window now
        = get_execution_count noFaults (cleanup_old_executions noFaults w now) now + 1) := by
  have hrej : maxE ≤ get_execution_count noFaults (cleanup_old_executions noFaults w now) now →
      check_and_record_execution_atomic noFaults w jid maxE now true
        = ⟨⟨false, get_execution_count noFaults (cleanup_old_executions noFaults w now) now,
            some (quotaExceededMessage
              (get_execution_count noFaults (cleanup_old_executions noFaults w now) now)
              maxE)⟩,
          cleanup_old_executions noFaults w now, true, true⟩ := by
    intro h
    simp [check_and_record_execution_atomic, h]
  have hsucc : get_execution_count noFaults (cleanup_old_executions noFaults w now) now < maxE →
      check_and_record_execution_atomic noFaults w jid maxE now true
        = ⟨⟨true,
            get_execution_count noFaults (cleanup_old_executions noFaults w now) now + 1,
            none⟩,
          ⟨zadd (cleanup_old_executions noFaults w now).entries
              (execMemberString jid now) now,
            some (EXECUTION_TTL + 3600)⟩, true, true⟩ := by
    intro h
    simp [check_and_record_execution_atomic, Nat.not_le.mpr h, expireW]
  refine ⟨rfl, hrej, hsucc, ?_⟩
  intro h hfresh
  rw [hsucc h]
  rw [zadd_of_not_mem _ _ _ hfresh]
  have hp : now - ((24 * 3600 : Nat) : Int) ≤ now ∧ now ≤ now := by
    constructor <;> omega
  show get_execution_count noFaults
      ⟨⟨execMemberString jid now, now⟩ :: (cleanup_old_executions noFaults w now).entries,
        some (EXECUTION_TTL + 3600)⟩ now
    = get_execution_count noFaults (cleanup_old_executions noFaults w now) now + 1
  simp [get_execution_count, zcount, List.countP_cons, hp]

/-- C3 witness: reserving on an empty window with cap 2 at time 0 succeeds
with `current = 1`, and the post-reservation window count is 1. -/
theorem C3_witness :
    get_execution_count noFaults (cleanup_old_executions noFaults ⟨[], none⟩ 0) 0 < 2 ∧
    check_and_record_execution_atomic noFaults ⟨[], none⟩ "j" 2 0 true
      = ⟨⟨true, get_execution_count noFaults (cleanup_old_executions noFaults ⟨[], none⟩ 0) 0 + 1,
          none⟩,
        ⟨zadd (cleanup_old_executions noFaults ⟨[], none⟩ 0).entries
            (execMemberString "j" 0) 0,
          some (EXECUTION_TTL + 3600)⟩, true, true⟩ ∧
    get_execution_count noFaults
        (check_and_record_execution_atomic noFaults ⟨[], none⟩ "j" 2 0 true).window 0
      = get_execution_count noFaults (cleanup_old_executions noFaults ⟨[], none⟩ 0) 0 + 1 :=
  ⟨by decide,
    (C3_check_and_record_execution_atomic ⟨[], none⟩ "j" 2 0).2.2.1 (by decide),
    (C3_check_and_record_execution_atomic ⟨[], none⟩ "j" 2 0).2.2.2 (by decide)
      (fun e he => nomatch he)⟩

/-- C5: an execution recorded at time `t` is counted by the
cleanup-then-count admission evaluation at `now` exactly when
`t ≤ now < t + 86400`; and once `t + 86400 ≤ now` the stale entry is
removed by cleanup (score at most `now − 86400`) before counting, so the
whole atomic reservation behaves exactly as if the entry were absent —
it cannot block an admission that would otherwise succeed. -/
theorem C5_sliding_window_contribution (m : String) (t now : Int) (ttl : Option Nat) :
    (get_execution_count noFaults
        (cleanup_old_executions noFaults ⟨[⟨m, t⟩], ttl⟩ now) now
      = if t ≤ now ∧ now < t + 86400 then 1 else 0) ∧
    (t + 86400 ≤ now → ∀ (es : ZSet) (jid : String) (maxE : Nat),
      check_and_record_execution_atomic noFaults ⟨⟨m, t⟩ :: es, ttl⟩ jid maxE now true
        = check_and_record_execution_atomic noFaults ⟨es, ttl⟩ jid maxE now true) := by
  constructor
  · rcases le_or_lt t (now - 86400) with hold | hrecent
    · have hp : ¬(now - ((EXECUTION_TTL : Nat) : Int) < t) := by
        simp [EXECUTION_TTL]
        omega
      have hcl : cleanup_old_executions noFaults ⟨[⟨m, t⟩], ttl⟩ now = ⟨[], ttl⟩ := by
        simp [cleanup_old_executions, zremrangebyscoreUpTo, List.filter_cons, hp]
      rw [hcl, if_neg (by omega)]
      rfl
    · have hp : now - ((EXECUTION_TTL : Nat) : Int) < t := by
        simp [EXECUTION_TTL]
        omega
      have hcl : cleanup_old_executions noFaults ⟨[⟨m, t⟩], ttl⟩ now = ⟨[⟨m, t⟩], ttl⟩ := by
        simp [cleanup_old_executions, zremrangebyscoreUpTo, List.filter_cons, hp]
      rw [hcl]
      rcases le_or_lt t now with hle | hfut
      · rw [if_pos ⟨hle, by omega⟩]
        have hq : (now - ((24 * 3600 : Nat) : Int) ≤ t ∧ t ≤ now) := ⟨by omega, hle⟩
        simp [get_execution_count, zcount, List.countP_cons, hq]
        omega
      · rw [if_neg (by omega)]
        have hq : ¬(now - ((24 * 3600 : Nat) : Int) ≤ t ∧ t ≤ now) := by
          omega
        simp [get_execution_count, zcount, List.countP_cons, hq]
        omega
  · intro hstale es jid maxE
    have hp : ¬(now - ((EXECUTION_TTL : Nat) : Int) < t) := by
      simp [EXECUTION_TTL]
      omega
    have hcl : cleanup_old_executions noFaults ⟨⟨m, t⟩ :: es, ttl⟩ now
        = cleanup_old_executions noFaults ⟨es, ttl⟩ now := by
      simp [cleanup_old_executions, zremrangebyscoreUpTo, List.filter_cons, hp]
    simp [check_and_record_execution_atomic, hcl]

/-- C5 witness: an entry recorded at `t = 100` no longer counts at
`now = 86500 = t + 86400`, and with cap 1 the atomic reservation at that
moment is identical to the reservation on a window without the entry
(so it succeeds). -/
theorem C5_witness :
    (get_execution_count noFaults
        (cleanup_old_executions noFaults ⟨[⟨"job:100", 100⟩], none⟩ 86500) 86500
      = if (100 : Int) ≤ 86500 ∧ (86500 : Int) < 100 + 86400 then 1 else 0) ∧
    ((100 : Int) + 86400 ≤ 86500 ∧
      check_and_record_execution_atomic noFaults ⟨[⟨"job:100", 100⟩], none⟩ "j2" 1 86500 true
        = check_and_record_execution_atomic noFaults ⟨[], none⟩ "j2" 1 86500 true) :=
  ⟨(C5_sliding_window_contribution "job:100" 100 86500 none).1,
    by decide,
    (C5_sliding_window_contribution "job:100" 100 86500 none).2 (by decide) [] "j2" 1⟩

/-- C6: with the per-tenant app-count lock acquired and current count `c`,
the atomic increment rejects with `(false, c, message)` leaving the
counter unchanged when `c ≥ max_apps`, and otherwise stores `1` when
`c = 0` or the incremented value, returning `(true, c + 1, none)`; on
the rejection the register endpoint answers 403 carrying `max_apps`,
`current_count` and the message. -/
theorem C6_check_and_increment_app_count_atomic (lic : License) (c : AppCounter)
    (insertF : Bool) :
    ((lic.max_apps : Int) ≤ get_app_count noFaults c →
      check_and_increment_app_count_atomic noFaults c lic.max_apps true
        = ⟨⟨false, get_app_count noFaults c,
            some (maxAppsMessage (get_app_count noFaults c) lic.max_apps)⟩, c, true, true⟩) ∧
    (get_app_count noFaults c < lic.max_apps →
      check_and_increment_app_count_atomic noFaults c lic.max_apps true
        = ⟨⟨true, get_app_count noFaults c + 1, none⟩,
            some (get_app_count noFaults c + 1), true, true⟩) ∧
    ((lic.max_apps : Int) ≤ get_app_count noFaults c →
      application_register_post noFaults lic c false insertF true
        = (RegisterOutcome.forbiddenQuota lic.max_apps (get_app_count noFaults c)
            (maxAppsMessage (get_app_count noFaults c) lic.max_apps), c)) := by
  have hrej : (lic.max_apps : Int) ≤ get_app_count noFaults c →
      check_and_increment_app_count_atomic noFaults c lic.max_apps true
        = ⟨⟨false, get_app_count noFaults c,
            some (maxAppsMessage (get_app_count noFaults c) lic.max_apps)⟩, c, true, true⟩ := by
    intro h
    simp [check_and_increment_app_count_atomic, h]
  have hsucc : get_app_count noFaults c < lic.max_apps →
      check_and_increment_app_count_atomic noFaults c lic.max_apps true
        = ⟨⟨true, get_app_count noFaults c + 1, none⟩,
            some (get_app_count noFaults c + 1), true, true⟩ := by
    intro h
    have hn : ¬((lic.max_apps : Int) ≤ get_app_count noFaults c) := by omega
    by_cases hz : get_app_count noFaults c = 0
    · simp [check_and_increment_app_count_atomic, hn, hz]
      omega
    · have hc : c = some (get_app_count noFaults c) := by
        cases c with
        | none => simp [get_app_count] at hz
        | some n => simp [get_app_count]
      rw [check_and_increment_app_count_atomic]
      simp only [noFaults_failLockAcquire, Bool.false_eq_true, if_false, Bool.not_true]
      rw [if_neg hn, if_neg hz]
      simp only [noFaults_failCacheIncr, Bool.false_eq_true, if_false]
      rw [hc]
      simp [cache_incr, get_app_count]
  refine ⟨hrej, hsucc, ?_⟩
  intro h
  simp [application_register_post, hrej h]

/-- C6 witness: with the counter at 2 and `max_apps = 2` the reservation
rejects with `(false, 2, message)` and the endpoint answers 403 with the
quota envelope; with the counter at 2 and `max_apps = 3` it succeeds
with `(true, 3, none)`. -/
theorem C6_witness :
    check_and_increment_app_count_atomic noFaults (some 2) 2 true
      = ⟨⟨false, get_app_count noFaults (some 2),
          some (maxAppsMessage (get_app_count noFaults (some 2)) 2)⟩, some 2, true, true⟩ ∧
    application_register_post noFaults ⟨"t1", "Tenant", 2, 10, 0, 1000, LicenseStatus.ACTIVE⟩
        (some 2) false false true
      = (RegisterOutcome.forbiddenQuota 2 (get_app_count noFaults (some 2))
          (maxAppsMessage (get_app_count noFaults (some 2)) 2), some 2) ∧
    check_and_increment_app_count_atomic noFaults (some 2) 3 true
      = ⟨⟨true, get_app_count noFaults (some 2) + 1, none⟩,
          some (get_app_count noFaults (some 2) + 1), true, true⟩ :=
  ⟨(C6_check_and_increment_app_count_atomic
      ⟨"t1", "Tenant", 2, 10, 0, 1000, LicenseStatus.ACTIVE⟩ (some 2) false).1 (by decide),
    (C6_check_and_increment_app_count_atomic
      ⟨"t1", "Tenant", 2, 10, 0, 1000, LicenseStatus.ACTIVE⟩ (some 2) false).2.2 (by decide),
    (C6_check_and_increment_app_count_atomic
      ⟨"t1", "Tenant", 3, 10, 0, 1000, LicenseStatus.ACTIVE⟩ (some 2) false).2.1 (by decide)⟩

/-- Invariant lemma behind the execution cap: running a monotone sequence
of in-span start-job requests with pairwise-fresh members against a
window whose entries all lie between `t0` and every remaining request
time yields `min (max − |window|) |reqs|` creations and rejections for
the rest. -/
theorem run_start_jobs_count (lic : License) (app : Application)
    (happ : app.license_tenant = lic.tenant_id) (hact : app.is_active = true) :
    ∀ (reqs : List (Int × String)) (w : ExecWindow) (t0 : Int),
    (∀ p ∈ reqs, t0 ≤ p.1 ∧ p.1 < t0 + 86400) →
    List.Pairwise (fun p q => p.1 ≤ q.1) reqs →
    List.Pairwise (fun p q => reqMember p ≠ reqMember q) reqs →
    (∀ e ∈ w.entries, t0 ≤ e.score) →
    (∀ e ∈ w.entries, ∀ p ∈ reqs, e.score ≤ p.1) →
    (∀ p ∈ reqs, ∀ e ∈ w.entries, e.member ≠ reqMember p) →
    (run_start_jobs lic app w reqs).1.countP StartOutcome.isCreated
        = min (lic.max_executions_per_24h - w.entries.length) reqs.length ∧
    (run_start_jobs lic app w reqs).1.countP StartOutcome.isTooMany
        = reqs.length
          - min (lic.max_executions_per_24h - w.entries.length) reqs.length := by
  intro reqs
  induction reqs with
  | nil =>
    intro w t0 _ _ _ _ _ _
    simp [run_start_jobs]
  | cons p rest ih =>
    intro w t0 hin hmono hdistinct hlo hle hfresh
    obtain ⟨t, jid⟩ := p
    have ht0 : t0 ≤ t ∧ t < t0 + 86400 := hin (t, jid) (List.mem_cons_self _ _)
    have h86 : ((EXECUTION_TTL : Nat) : Int) = 86400 := by
      simp [EXECUTION_TTL]
    have hclean : cleanup_old_executions noFaults w t = w := by
      refine cleanup_old_executions_eq_self w t (fun e he => ?_)
      have := hlo e he
      omega
    have hcount : get_execution_count noFaults w t = w.entries.length := by
      have hb : ∀ e ∈ w.entries,
          t - ((24 * 3600 : Nat) : Int) ≤ e.score ∧ e.score ≤ t := by
        intro e he
        have h1 := hlo e he
        have h2 := hle e he (t, jid) (List.mem_cons_self _ _)
        constructor
        · omega
        · exact h2
      show zcount w.entries (t - ((24 * 3600 : Nat) : Int)) t = w.entries.length
      exact zcount_eq_length _ _ _ hb
    have hcnt : get_execution_count noFaults (cleanup_old_executions noFaults w t) t
        = w.entries.length := by
      rw [hclean]
      exact hcount
    rcases le_or_lt lic.max_executions_per_24h w.entries.length with hM | hkM
    · -- quota reached: the request is rejected and the window is unchanged
      have hatom : check_and_record_execution_atomic noFaults w jid
            lic.max_executions_per_24h t true
          = ⟨⟨false, w.entries.length,
              some (quotaExceededMessage w.entries.length lic.max_executions_per_24h)⟩,
            w, true, true⟩ := by
        simp [check_and_record_execution_atomic, hclean, hcount, hM]
      have hstep : job_start_post noFaults lic app w t jid false true
          = (StartOutcome.tooManyRequests lic.max_executions_per_24h w.entries.length
              (quotaExceededMessage w.entries.length lic.max_executions_per_24h), w) := by
        simp [job_start_post, happ, hact, hatom]
      have hrest := ih w t0
        (fun q hq => hin q (List.mem_cons_of_mem _ hq))
        ((List.pairwise_cons.mp hmono).2)
        ((List.pairwise_cons.mp hdistinct).2)
        hlo
        (fun e he q hq => hle e he q (List.mem_cons_of_mem _ hq))
        (fun q hq e he => hfresh q (List.mem_cons_of_mem _ hq) e he)
      simp only [run_start_jobs, hstep, List.countP_cons]
      constructor
      · rw [hrest.1]
        simp [StartOutcome.isCreated]
        omega
      · rw [hrest.2]
        simp [StartOutcome.isTooMany]
        omega
    · -- below quota: the request is admitted and its member joins the window
      have hfreshHead : ∀ e ∈ w.entries, e.member ≠ execMemberString jid t :=
        fun e he => hfresh (t, jid) (List.mem_cons_self _ _) e he
      have hz : zadd w.entries (execMemberString jid t) t
          = ⟨execMemberString jid t, t⟩ :: w.entries :=
        zadd_of_not_mem _ _ _ hfreshHead
      have hatom : check_and_record_execution_atomic noFaults w jid
            lic.max_executions_per_24h t true
          = ⟨⟨true, w.entries.length + 1, none⟩,
            ⟨⟨execMemberString jid t, t⟩ :: w.entries, some (EXECUTION_TTL + 3600)⟩,
            true, true⟩ := by
        simp [check_and_record_execution_atomic, hclean, hcount, Nat.not_le.mpr hkM, hz,
          expireW]
      have hstep : job_start_post noFaults lic app w t jid false true
          = (StartOutcome.created jid,
            ⟨⟨execMemberString jid t, t⟩ :: w.entries,
              some (EXECUTION_TTL + 3600)⟩) := by
        simp [job_start_post, happ, hact, hatom]
      have hmonoHead : ∀ q ∈ rest, t ≤ q.1 := by
        intro q hq
        exact (List.pairwise_cons.mp hmono).1 q hq
      have hdistHead : ∀ q ∈ rest, reqMember (t, jid) ≠ reqMember q := by
        intro q hq
        exact (List.pairwise_cons.mp hdistinct).1 q hq
      have hrest := ih
        ⟨⟨execMemberString jid t, t⟩ :: w.entries, some (EXECUTION_TTL + 3600)⟩ t0
        (fun q hq => hin q (List.mem_cons_of_mem _ hq))
        ((List.pairwise_cons.mp hmono).2)
        ((List.pairwise_cons.mp hdistinct).2)
        (by
          intro e he
          rcases List.mem_cons.mp he with h | h
          · rw [h]
            exact ht0.1
          · exact hlo e h)
        (by
          intro e he q hq
          rcases List.mem_cons.mp he with h | h
          · rw [h]
            exact hmonoHead q hq
          · exact hle e h q (List.mem_cons_of_mem _ hq))
        (by
          intro q hq e he
          rcases List.mem_cons.mp he with h | h
          · rw [h]
            exact hdistHead q hq
          · exact hfresh q (List.mem_cons_of_mem _ hq) e h)
      simp only [run_start_jobs, hstep, List.countP_cons]
      rw [List.length_cons] at hrest
      constructor
      · rw [hrest.1]
        simp [StartOutcome.isCreated]
        omega
      · rw [hrest.2]
        simp [StartOutcome.isTooMany]
        omega

/-- C4: for a tenant capped at `M = max_executions_per_24h`, a sequence of
`N > M` start-job requests issued within one 24-hour span (valid active
application of the tenant, fresh job ids, monotone request times,
starting from an empty window) yields exactly `M` 201-created responses
and `N − M` 429 rejections. -/
theorem C4_execution_cap (lic : License) (app : Application)
    (reqs : List (Int × String)) (t0 : Int)
    (happ : app.license_tenant = lic.tenant_id) (hact : app.is_active = true)
    (hin : ∀ p ∈ reqs, t0 ≤ p.1 ∧ p.1 < t0 + 86400)
    (hmono : List.Pairwise (fun p q => p.1 ≤ q.1) reqs)
    (hdistinct : List.Pairwise (fun p q => reqMember p ≠ reqMember q) reqs)
    (hover : lic.max_executions_per_24h < reqs.length) :
    (run_start_jobs lic app ⟨[], none⟩ reqs).1.countP StartOutcome.isCreated
        = lic.max_executions_per_24h ∧
    (run_start_jobs lic app ⟨[], none⟩ reqs).1.countP StartOutcome.isTooMany
        = reqs.length - lic.max_executions_per_24h := by
  have h := run_start_jobs_count lic app happ hact reqs ⟨[], none⟩ t0 hin hmono hdistinct
    (fun e he => nomatch he) (fun e he => nomatch he) (fun q hq e he => nomatch he)
  constructor
  · rw [h.1]
    simp
    omega
  · rw [h.2]
    simp
    omega

/-- C4 witness: cap 2, three sequential in-window requests at times 0, 1,
2 with fresh job ids: exactly two 201s and one 429. -/
theorem C4_witness :
    (run_start_jobs ⟨"t1", "Tenant", 5, 2, 0, 1000000, LicenseStatus.ACTIVE⟩
        ⟨"app1", "t1", "A", true⟩ ⟨[], none⟩
        [(0, "a"), (1, "b"), (2, "c")]).1.countP StartOutcome.isCreated = 2 ∧
    (run_start_jobs ⟨"t1", "Tenant", 5, 2, 0, 1000000, LicenseStatus.ACTIVE⟩
        ⟨"app1", "t1", "A", true⟩ ⟨[], none⟩
        [(0, "a"), (1, "b"), (2, "c")]).1.countP StartOutcome.isTooMany = 3 - 2 :=
  C4_execution_cap ⟨"t1", "Tenant", 5, 2, 0, 1000000, LicenseStatus.ACTIVE⟩
    ⟨"app1", "t1", "A", true⟩ [(0, "a"), (1, "b"), (2, "c")] 0
    rfl rfl (by decide) (by decide) (by decide) (by decide)

/-- C9: no public QuotaService method propagates a backend raise — each
returns its documented default when the corresponding cache/Redis call
raises (0 for the counts, the empty list for the history, `false` for
`record_execution`, 0 for `decrement_app_count`, and the
`(false, 0, "Internal error: …")` triple for the two atomic
reservations), and an atomic method that acquired the per-tenant lock
releases it on every path, under every fault assignment. -/
theorem C9_no_exception_propagation :
    (∀ (f : Faults) (w : ExecWindow) (now : Int), f.failZcount = true →
      get_execution_count f w now = 0) ∧
    (∀ (f : Faults) (c : AppCounter), f.failCacheGet = true →
      get_app_count f c = 0) ∧
    (∀ (f : Faults) (w : ExecWindow) (now : Int), f.failZrange = true →
      get_execution_history f w now = []) ∧
    (∀ (f : Faults) (w : ExecWindow) (jid : String) (now : Int),
      f.failZadd = true ∨ f.failExpire = true →
      (record_execution f w jid now).1 = false) ∧
    (∀ (f : Faults) (c : AppCounter), f.failCacheDecr = true ∨ c = none →
      (decrement_app_count f c).1 = 0) ∧
    (∀ (f : Faults) (w : ExecWindow) (jid : String) (maxE : Nat) (now : Int) (lav : Bool),
      f.failLockAcquire = true →
      (check_and_record_execution_atomic f w jid maxE now lav).result
        = ⟨false, 0, some (internalErrorMessage "lock acquire failed")⟩) ∧
    (∀ (f : Faults) (w : ExecWindow) (jid : String) (maxE : Nat) (now : Int),
      f.failLockAcquire = false →
      get_execution_count f (cleanup_old_executions f w now) now < maxE →
      f.failZadd = true ∨ f.failExpire = true →
      ∃ e, (check_and_record_execution_atomic f w jid maxE now true).result
        = ⟨false, 0, some (internalErrorMessage e)⟩) ∧
    (∀ (f : Faults) (c : AppCounter) (maxApps : Nat) (lav : Bool),
      f.failLockAcquire = true →
      (check_and_increment_app_count_atomic f c maxApps lav).result
        = ⟨false, 0, some (internalErrorMessage "lock acquire failed")⟩) ∧
    (∀ (f : Faults) (c : AppCounter) (maxApps : Nat),
      f.failLockAcquire = false →
      get_app_count f c < (maxApps : Int) →
      ((get_app_count f c = 0 ∧ f.failCacheSet = true) ∨
        (get_app_count f c ≠ 0 ∧ f.failCacheIncr = true)) →
      ∃ e, (check_and_increment_app_count_atomic f c maxApps true).result
        = ⟨false, 0, some (internalErrorMessage e)⟩) ∧
    (∀ (f : Faults) (w : ExecWindow) (jid : String) (maxE : Nat) (now : Int) (lav : Bool),
      (check_and_record_execution_atomic f w jid maxE now lav).lockWasAcquired = true →
      (check_and_record_execution_atomic f w jid maxE now lav).lockReleased = true) ∧
    (∀ (f : Faults) (c : AppCounter) (maxApps : Nat) (lav : Bool),
      (check_and_increment_app_count_atomic f c maxApps lav).lockWasAcquired = true →
      (check_and_increment_app_count_atomic f c maxApps lav).lockReleased = true) := by
  refine ⟨?_, ?_, ?_, ?_, ?_, ?_, ?_, ?_, ?_, ?_, ?_⟩
  · intro f w now h
    simp [get_execution_count, h]
  · intro f c h
    simp [get_app_count, h]
  · intro f w now h
    simp [get_execution_history, h]
  · intro f w jid now h
    by_cases hz : f.failZadd = true
    · simp [record_execution, hz]
    · rcases h with h | h
      · exact absurd h hz
      · simp [record_execution, hz, h]
  · intro f c h
    by_cases hd : f.failCacheDecr = true
    · simp [decrement_app_count, hd]
    · rcases h with h | h
      · exact absurd h hd
      · subst h
        simp [decrement_app_count, hd, cache_decr]
  · intro f w jid maxE now lav h
    simp [check_and_record_execution_atomic, h]
  · intro f w jid maxE now hl hc h
    by_cases hz : f.failZadd = true
    · exact ⟨"zadd failed",
        by simp [check_and_record_execution_atomic, hl, Nat.not_le.mpr hc, hz]⟩
    · rcases h with h | h
      · exact absurd h hz
      · exact ⟨"expire failed",
          by simp [check_and_record_execution_atomic, hl, Nat.not_le.mpr hc, hz, h]⟩
  · intro f c maxApps lav h
    simp [check_and_increment_app_count_atomic, h]
  · intro f c maxApps hl hc h
    have hnle : ¬((maxApps : Int) ≤ get_app_count f c) := by omega
    rcases h with ⟨hz, hset⟩ | ⟨hz, hincr⟩
    · refine ⟨"cache set failed", ?_⟩
      have hmz : ¬maxApps = 0 := by omega
      simp [check_and_increment_app_count_atomic, hl, hnle, hz, hset, hmz]
    · exact ⟨"cache incr failed",
        by simp [check_and_increment_app_count_atomic, hl, hnle, hz, hincr]⟩
  · intro f w jid maxE now lav
    by_cases h1 : f.failLockAcquire = true <;>
      cases lav <;>
        by_cases h2 : maxE ≤ get_execution_count f (cleanup_old_executions f w now) now <;>
          by_cases h3 : f.failZadd = true <;>
            by_cases h4 : f.failExpire = true <;>
              simp [check_and_record_execution_atomic, h1, h2, h3, h4]
  · intro f c maxApps lav
    by_cases h1 : f.failLockAcquire = true <;> cases lav <;> cases c <;>
      simp only [check_and_increment_app_count_atomic, cache_incr, h1] <;>
        (try split_ifs) <;> first | rfl | simp_all

/-- C9 witness: concrete faulty runs — a raising `ZCOUNT` reads as 0, a
raising `ZADD` makes `record_execution` return false, `cache.decr` on an
absent key returns 0, both atomic reservations return the internal-error
triple under their faults, and the fault-free reservation releases its
lock. -/
theorem C9_witness :
    get_execution_count ⟨false, false, false, true, false, false, false, false, false, false⟩
        ⟨[], none⟩ 0 = 0 ∧
    (record_execution ⟨false, true, false, false, false, false, false, false, false, false⟩
        ⟨[], none⟩ "j" 0).1 = false ∧
    (decrement_app_count noFaults none).1 = 0 ∧
    (∃ e, (check_and_record_execution_atomic
        ⟨false, true, false, false, false, false, false, false, false, false⟩
        ⟨[], none⟩ "j" 5 0 true).result = ⟨false, 0, some (internalErrorMessage e)⟩) ∧
    (∃ e, (check_and_increment_app_count_atomic
        ⟨false, false, false, false, false, false, false, false, true, false⟩
        (some 1) 5 true).result = ⟨false, 0, some (internalErrorMessage e)⟩) ∧
    (check_and_record_execution_atomic noFaults ⟨[], none⟩ "j" 5 0 true).lockReleased
      = true := by
  obtain ⟨p1, p2, p3, p4, p5, p6, p7, p8, p9, p10, p11⟩ := C9_no_exception_propagation
  refine ⟨p1 _ ⟨[], none⟩ 0 rfl, p4 _ ⟨[], none⟩ "j" 0 (Or.inl rfl),
    p5 noFaults none (Or.inr rfl),
    p7 _ ⟨[], none⟩ "j" 5 0 rfl (by decide) (Or.inl rfl),
    p9 _ (some 1) 5 rfl (by decide) (Or.inr ⟨by decide, rfl⟩),
    p10 noFaults ⟨[], none⟩ "j" 5 0 true (by decide)⟩

end LicensingCloud
